import Mathlib

/-!
Verification development for the `nest-common` trust-boundary authenticator
and secret-resolver subsystems.

The definitions below are a shallow embedding of the TypeScript source:

* `src/auth/auth.guard.ts` — `AuthGuard.canActivate`,
  `AuthGuard.verifyKongTrustHeader`, `AuthGuard.validateServiceApiKey`,
  `AuthGuard.extractUserFromHeaders`, `AuthGuard.parseValue`,
  `AuthGuard.toCamelCase`;
* `src/auth/utils/to-camel-case.ts` — `toCamelCase`;
* `src/auth/utils/parse-header-value.ts` — `parseHeaderValue`;
* `src/secrets/providers/gcp.provider.ts`, `aws.provider.ts`,
  `azure.provider.ts` — the cloud provider family (`get`, cache management,
  error wrapping for `set`/`remove`/`list`);
* `src/secrets/providers/local.provider.ts` — `LocalSecretsProvider.get`.

JavaScript strings are modelled as Lean `String` and byte buffers
(`Buffer.from`) as `List Nat`; `undefined`-able values as `Option`;
millisecond clocks (`Date.now()`) as `Nat`; the backing cloud stores and the
base64/JSON decoding of the `x-userinfo` blob as explicit oracle functions,
since they are external collaborators of the code under verification.
-/

/-! ## JavaScript string and truthiness primitives -/

/-- JS truthiness of a possibly-absent header/string value:
`undefined` and `""` are falsy. -/
def truthy : Option String → Bool
  | none => false
  | some s => !(s == "")

/-- JS `a || b` on possibly-absent strings: yields `a` when truthy,
otherwise `b` (even when `b` is itself falsy). -/
def jsOr (a b : Option String) : Option String :=
  if truthy a then a else b

/-- JS `a || d` with a string default: yields the string in `a` when truthy,
otherwise the default `d`. -/
def jsOrDefault (a : Option String) (d : String) : String :=
  if truthy a then a.getD "" else d

/-- First-match association-list lookup (JS object property read). -/
def assocGet {α : Type} (m : List (String × α)) (k : String) : Option α :=
  (m.find? (fun p => p.1 == k)).map (fun p => p.2)

/-- Header lookup: JS `headers[name]` (headers are lower-cased by the server). -/
def hGet (hs : List (String × String)) (k : String) : Option String :=
  assocGet hs k

/-- `l` starts with `p` (char-list level). -/
def listStarts : List Char → List Char → Bool
  | _, [] => true
  | [], _ :: _ => false
  | a :: as, b :: bs => a == b && listStarts as bs

/-- JS `String.prototype.startsWith`. -/
def strStarts (s p : String) : Bool :=
  listStarts s.data p.data

/-- `needle` occurs as a contiguous run inside `hay` (char-list level). -/
def listHasSub (needle : List Char) : List Char → Bool
  | [] => listStarts [] needle
  | h :: t => listStarts (h :: t) needle || listHasSub needle t

/-- JS `String.prototype.includes`. -/
def jsIncludes (s sub : String) : Bool :=
  listHasSub sub.data s.data

/-- JS `String.prototype.split` with a single-character separator. -/
def splitOnChar (c : Char) : List Char → List (List Char)
  | [] => [[]]
  | h :: t =>
    if h == c then [] :: splitOnChar c t
    else
      match splitOnChar c t with
      | [] => [[h]]
      | r :: rs => (h :: r) :: rs

/-- JS `String.prototype.trim` (leading/trailing whitespace removed). -/
def trimChars (l : List Char) : List Char :=
  ((l.dropWhile Char.isWhitespace).reverse.dropWhile Char.isWhitespace).reverse

/-- `value.split(',').map((v) => v.trim())` from the claim parsers. -/
def jsSplitTrim (s : String) : List String :=
  (splitOnChar ',' s.data).map (fun l => String.mk (trimChars l))

/-- The regex test `^\d+$`: non-empty and all ASCII digits. -/
def jsIsAllDigits (s : String) : Bool :=
  !(s.data.isEmpty) && s.data.all Char.isDigit

/-- `parseInt(value, 10)` on a string of decimal digits. -/
def parseDecimalDigits (s : String) : Nat :=
  s.data.foldl (fun acc c => acc * 10 + (c.toNat - 48)) 0

/-! ## ClaimExtractor: `parseHeaderValue` and `toCamelCase`

`parseHeaderValue` embeds both `parseHeaderValue` in
`src/auth/utils/parse-header-value.ts` and the textually identical private
`AuthGuard.parseValue` in `src/auth/auth.guard.ts`. -/

/-- The tagged claim value type inferred from string-only header values. -/
inductive ClaimValue : Type
  | str (s : String)
  | arr (xs : List String)
  | num (n : Nat)
  | boolean (b : Bool)
deriving DecidableEq

/-- `parseHeaderValue` / `AuthGuard.parseValue`: comma → array of trimmed
segments; else `^\d+$` → integer; else `"true"`/`"false"` → boolean;
else the literal string. -/
def parseHeaderValue (value : String) : ClaimValue :=
  if jsIncludes value "," then .arr (jsSplitTrim value)
  else if jsIsAllDigits value then .num (parseDecimalDigits value)
  else if value == "true" then .boolean true
  else if value == "false" then .boolean false
  else .str value

/-- ASCII `[a-z]` test used by the camel-case regex. -/
def isAsciiLowerChar (c : Char) : Bool :=
  'a' ≤ c && c ≤ 'z'

/-- Char-list form of the global regex replace in `toCamelCase` (pattern:
a hyphen followed by a captured `[a-z]`, replaced by the uppercased capture):
a left-to-right, non-overlapping scan that replaces each hyphen+lowercase
pair by the uppercased letter. -/
def camelChars : List Char → List Char
  | [] => []
  | [c] => [c]
  | c1 :: c2 :: rest =>
    if c1 == '-' && isAsciiLowerChar c2 then c2.toUpper :: camelChars rest
    else c1 :: camelChars (c2 :: rest)

/-- `toCamelCase` from `src/auth/utils/to-camel-case.ts` (and the identical
private `AuthGuard.toCamelCase`). -/
def toCamelCase (s : String) : String :=
  String.mk (camelChars s.data)

/-! ## Constant-time secret comparison

Both guard call sites compare with
`provided.length !== expected.length || !timingSafeEqual(provided, expected)`.
JS `||` short-circuits, so `timingSafeEqual` is evaluated exactly when the
lengths are equal; the trace records that fact. -/

/-- Byte-wise constant-time equality (`crypto.timingSafeEqual`), modelled as
an or-accumulated xor over the zipped bytes; defined for equal-length
inputs. -/
def timingSafeEqualBytes (a b : List Nat) : Bool :=
  ((a.zip b).foldl (fun acc p => acc ||| (p.1 ^^^ p.2)) 0) == 0

/-- Result of one guard secret comparison together with whether the byte
comparator (`timingSafeEqual`) was evaluated. -/
structure CompareTrace where
  result : Bool
  comparatorInvoked : Bool
deriving DecidableEq

/-- The comparison used by the guard:
`provided.length !== expected.length || !timingSafeEqual(provided, expected)`
(negated to "accept"), with the JS short-circuit made explicit. -/
def secretCompare (provided expected : List Nat) : CompareTrace :=
  if provided.length != expected.length then ⟨false, false⟩
  else ⟨timingSafeEqualBytes provided expected, true⟩

/-- `Buffer.from(string)` as a byte list (codepoint model). -/
def strBytes (s : String) : List Nat :=
  s.data.map Char.toNat

/-! ## Trust-boundary authenticator (`AuthGuard`) -/

/-- The user record the guard attaches to the request (`req.user`):
`id` holds `claims.sub` (userinfo path) or the consumer-id /
credential-identifier header (legacy path); `claims` holds every other
extracted claim. -/
structure KongUser where
  id : Option ClaimValue
  claims : List (String × ClaimValue)
deriving DecidableEq

/-- The rejection outcomes of the guard (`UnauthorizedException` /
`ForbiddenException`). -/
inductive AuthError : Type
  | unauthorized (msg : String)
  | forbidden (msg : String)
deriving DecidableEq

/-- The request fields the guard reads and writes. -/
structure Request where
  url : Option String
  path : Option String
  headers : List (String × String)
deriving DecidableEq

/-- An oracle for `Buffer.from` with base64 decoding + `JSON.parse`:
`none` models a decode/parse failure (the `catch` branch), `some claims`
a successfully parsed claims object. -/
def UserinfoDecoder : Type := String → Option (List (String × ClaimValue))

/-- The literal header-name constants (`KongHeaders`). -/
def consumerIdHeader : String := "x-consumer-id"

def consumerUsernameHeader : String := "x-consumer-username"

def credentialIdentifierHeader : String := "x-credential-identifier"

def userinfoHeader : String := "x-userinfo"

def jwtClaimHeaderStem : String := "x-jwt-claim-"

/-- The `key.replace` call that erases the claim-header stem, on a key that
starts with it: drop its 12 characters. -/
def stripJwtClaimStem (k : String) : String :=
  String.mk (k.data.drop jwtClaimHeaderStem.data.length)

/-- `AuthGuard.extractUserFromHeaders`: primary userinfo path (decode the
blob, map `sub` to `id`, copy the other claims), falling back on decode
failure or absent header to the legacy path (id from consumer-id or
credential-identifier, claims from the `x-jwt-claim-*` headers via
`toCamelCase` and `parseHeaderValue`). -/
def extractUserFromHeadersG (decode : UserinfoDecoder)
    (hs : List (String × String)) : KongUser :=
  let userinfo := hGet hs userinfoHeader
  let fromUserinfo : Option KongUser :=
    if truthy userinfo then
      match decode (userinfo.getD "") with
      | some claims =>
        some { id := assocGet claims "sub"
               claims := claims.filter (fun p => !(p.1 == "sub")) }
      | none => none
    else none
  match fromUserinfo with
  | some u => u
  | none =>
    let userId := jsOr (hGet hs consumerIdHeader) (hGet hs credentialIdentifierHeader)
    { id := userId.map ClaimValue.str
      claims :=
        (hs.filter (fun p => strStarts p.1 jwtClaimHeaderStem)).map
          (fun p => (toCamelCase (stripJwtClaimStem p.1), parseHeaderValue p.2)) }

/-- The infrastructure-endpoint bypass test inside
`AuthGuard.verifyKongTrustHeader`:
the path contains the dotted segment `/.well-known/`, equals `/health`,
starts with `/health/`, or equals `/metrics`. -/
def isInfraBypassPath (path : String) : Bool :=
  jsIncludes path "/.well-known/" || path == "/health" ||
    strStarts path "/health/" || path == "/metrics"

/-- `AuthGuard.verifyKongTrustHeader`.  Returns the admit/throw outcome
together with the list of secret keys fetched from the `SecretsService`
and the number of `secretCompare` evaluations performed.
`secrets` is the `SecretsService.get` oracle (`none`/empty = falsy). -/
def verifyKongTrustHeader (secrets : String → Option String) (req : Request) :
    Except AuthError Unit × List String × Nat :=
  let path := jsOr req.url req.path
  if truthy path && isInfraBypassPath (path.getD "") then
    (.ok (), [], 0)
  else
    let kongTrustHeader := hGet req.headers "x-kong-trust"
    if !truthy kongTrustHeader then
      (.error (.unauthorized "Unauthorized request"), [], 0)
    else
      let expectedToken := secrets "KONG_TRUST_TOKEN"
      if !truthy expectedToken then
        (.error (.unauthorized "Authentication configuration error"),
          ["KONG_TRUST_TOKEN"], 0)
      else
        let tr := secretCompare (strBytes (kongTrustHeader.getD ""))
          (strBytes (expectedToken.getD ""))
        if !tr.result then
          (.error (.unauthorized "Unauthorized request"), ["KONG_TRUST_TOKEN"], 1)
        else
          (.ok (), ["KONG_TRUST_TOKEN"], 1)

/-- `AuthGuard.validateServiceApiKey`.  On success yields the service name
to attach (`x-service-name` header or `"internal"`); also reports fetched
secret keys and `secretCompare` evaluations. -/
def validateServiceApiKey (secrets : String → Option String) (req : Request)
    (apiKey : String) : Except AuthError String × List String × Nat :=
  let validApiKey := secrets "API_KEY"
  if !truthy validApiKey then
    (.error (.unauthorized "Server API key is not configured"), ["API_KEY"], 0)
  else
    let tr := secretCompare (strBytes apiKey) (strBytes (validApiKey.getD ""))
    if !tr.result then
      (.error (.forbidden "Invalid API key"), ["API_KEY"], 1)
    else
      (.ok (jsOrDefault (hGet req.headers "x-service-name") "internal"),
        ["API_KEY"], 1)

deriving instance DecidableEq for Except

/-- The full observable outcome of one `AuthGuard.canActivate` run:
`result` (admit `true` or thrown error), the final `request.user` and
`request.service`, the secret keys fetched and the number of secret
comparisons performed. -/
structure AuthOutcome where
  result : Except AuthError Bool
  user : Option KongUser
  service : Option String
  secretFetches : List String
  compares : Nat
deriving DecidableEq

/-- `AuthGuard.canActivate` on a fresh request (`request.user` and
`request.service` initially absent), with the route `@Public()` flag as
`isPublic`. -/
def canActivate (secrets : String → Option String) (decode : UserinfoDecoder)
    (isPublic : Bool) (req : Request) : AuthOutcome :=
  let hs := req.headers
  let apiKey := hGet hs "x-api-key"
  let kongTrustHeader := hGet hs "x-kong-trust"
  let cameFromKong := truthy kongTrustHeader
  let phase1 : Except AuthError (Option String) × List String × Nat :=
    if cameFromKong then
      match verifyKongTrustHeader secrets req with
      | (.ok _, f, c) => (.ok none, f, c)
      | (.error e, f, c) => (.error e, f, c)
    else if truthy apiKey then
      match validateServiceApiKey secrets req (apiKey.getD "") with
      | (.ok svc, f, c) => (.ok (some svc), f, c)
      | (.error e, f, c) => (.error e, f, c)
    else
      (.ok none, [], 0)
  match phase1 with
  | (.error e, f, c) => ⟨.error e, none, none, f, c⟩
  | (.ok svc0, f, c) =>
    if isPublic then ⟨.ok true, none, svc0, f, c⟩
    else
      let consumerId := hGet hs consumerIdHeader
      let consumerUsername := hGet hs consumerUsernameHeader
      let credentialIdentifier := hGet hs credentialIdentifierHeader
      let userinfo := hGet hs userinfoHeader
      let hasKongHeaders := truthy consumerId || truthy consumerUsername ||
        truthy credentialIdentifier || truthy userinfo
      if hasKongHeaders then
        if truthy consumerId || truthy credentialIdentifier || truthy userinfo then
          ⟨.ok true, some (extractUserFromHeadersG decode hs), svc0, f, c⟩
        else if truthy consumerUsername then
          ⟨.ok true, none, consumerUsername, f, c⟩
        else
          ⟨.ok true, none, svc0, f, c⟩
      else if cameFromKong && truthy apiKey then
        ⟨.ok true, none, some "partner", f, c⟩
      else if truthy apiKey then
        ⟨.ok true, none, svc0, f, c⟩
      else
        ⟨.error (.unauthorized "No authentication provided"), none, svc0, f, c⟩

/-! ## SecretResolver: cache model shared by the cloud providers -/

/-- `CacheEntry` (`cloud-provider.interface.ts` / `local.provider.ts`):
a value with its absolute expiry time in milliseconds. -/
structure CacheEntry where
  value : String
  expiresAt : Nat
deriving DecidableEq

/-- The provider cache (`Map<string, CacheEntry>`), as an association list. -/
abbrev Cache : Type := List (String × CacheEntry)

/-- `Map.prototype.delete`. -/
def cacheErase (c : Cache) (k : String) : Cache :=
  List.filter (fun p => !(p.1 == k)) c

/-- `Map.prototype.set` (insert-or-overwrite). -/
def cacheInsert (c : Cache) (k : String) (e : CacheEntry) : Cache :=
  (k, e) :: cacheErase c k

/-- `Map.prototype.get`. -/
def cacheFind (c : Cache) (k : String) : Option CacheEntry :=
  assocGet c k

/-- The cloud provider cache TTL: `5 * 60 * 1000` ms. -/
def CLOUD_CACHE_TTL_MS : Nat := 5 * 60 * 1000

/-- `getFromCache` — identical in the GCP, AWS and Azure providers: a hit
returns the stored value unless `Date.now() > entry.expiresAt`, in which
case the entry is deleted and the read is a miss.  Returns the value (if
any) and the updated cache. -/
def getFromCache (now : Nat) (c : Cache) (key : String) :
    Option String × Cache :=
  match cacheFind c key with
  | none => (none, c)
  | some entry =>
    if now > entry.expiresAt then (none, cacheErase c key)
    else (some entry.value, c)

/-- `isUrlValue` (GCP provider only): the value starts with `https://` or
`http://`. -/
def isUrlValue (v : String) : Bool :=
  strStarts v "https://" || strStarts v "http://"

/-- GCP `setCache`: URL-shaped values are deliberately not cached; other
values are stored for `CLOUD_CACHE_TTL_MS`. -/
def gcpSetCache (now : Nat) (c : Cache) (key value : String) : Cache :=
  if isUrlValue value then c
  else cacheInsert c key ⟨value, now + CLOUD_CACHE_TTL_MS⟩

/-- AWS `setCache`: every value is stored for `CLOUD_CACHE_TTL_MS`
(no URL exemption in the AWS provider). -/
def awsSetCache (now : Nat) (c : Cache) (key value : String) : Cache :=
  cacheInsert c key ⟨value, now + CLOUD_CACHE_TTL_MS⟩

/-- Azure `setCache`: textually identical to the AWS one — every value is
stored for `CLOUD_CACHE_TTL_MS` (no URL exemption). -/
def azureSetCache (now : Nat) (c : Cache) (key value : String) : Cache :=
  cacheInsert c key ⟨value, now + CLOUD_CACHE_TTL_MS⟩

/-! ## Cloud provider family: configuration, naming, fetch -/

/-- The provider configuration fields the naming convention uses. -/
structure CloudCfg where
  projectName : String
  serviceName : String
deriving DecidableEq

/-- `buildSecretName` (GCP/AWS): `{projectName}-{scope}-{KEY}`. -/
def buildSecretName (cfg : CloudCfg) (key scope : String) : String :=
  cfg.projectName ++ "-" ++ scope ++ "-" ++ key

/-- Azure `transformKey`: underscores become hyphens
(Key Vault forbids underscores). -/
def azureTransformKey (k : String) : String :=
  String.mk (k.data.map (fun c => if c == '_' then '-' else c))

/-- Azure `buildSecretName`: `{projectName}-{scope}-{transformKey KEY}`. -/
def azureBuildSecretName (cfg : CloudCfg) (key scope : String) : String :=
  cfg.projectName ++ "-" ++ scope ++ "-" ++ azureTransformKey key

/-- `serviceName.toUpperCase().replace()` of hyphens by underscores, used by
the GCP `API_KEY` special case. -/
def upperSnake (s : String) : String :=
  String.mk (s.data.map (fun c =>
    let u := c.toUpper
    if u == '-' then '_' else u))

/-- One backend call outcome for a secret-version read: a successful
response whose payload may be absent, or a thrown error carrying the
numeric backend code (GCP gRPC code; `5` = NOT_FOUND) and message. -/
inductive FetchOutcome : Type
  | ok (value : Option String)
  | err (code : Option Int) (msg : String)
deriving DecidableEq

/-- A cloud backend read oracle: full secret name ↦ outcome. -/
def FetchBackend : Type := String → FetchOutcome

/-- GCP `fetchSecretFromGCP`: success without payload data → `null`;
`NOT_FOUND` (code 5) → `null`; every other error is logged and *also*
returned as `null` (`return null` in the catch-all). -/
def gcpFetchSecret (backend : FetchBackend) (name : String) : Option String :=
  match backend name with
  | .ok v => v
  | .err _ _ => none

/-- AWS `fetchSecretFromAWS`: `response.SecretString || null` on success
(so the empty string is also `null`); every thrown error → `null`. -/
def awsFetchSecret (backend : FetchBackend) (name : String) : Option String :=
  match backend name with
  | .ok (some s) => if s == "" then none else some s
  | .ok none => none
  | .err _ _ => none

/-- Azure `fetchSecretFromAzure`: `secret.value || null` on success;
every thrown error → `null`. -/
def azureFetchSecret (backend : FetchBackend) (name : String) : Option String :=
  match backend name with
  | .ok (some s) => if s == "" then none else some s
  | .ok none => none
  | .err _ _ => none

/-- Observable outcome of one cloud-provider `get`: the returned value, the
updated cache, and the full secret names fetched from the backend, in
order. -/
structure GetResult where
  value : Option String
  cache : Cache
  fetched : List String
deriving DecidableEq

/-- `GCPSecretsProvider.get`: cache first; the `API_KEY` literal resolves
only through the shared scope under `{SERVICE_NAME_UPPER_SNAKE}_API_KEY`;
every other key tries the service scope then falls back to the shared
scope; non-null results are cached via `gcpSetCache`. -/
def gcpGet (cfg : CloudCfg) (backend : FetchBackend) (now : Nat)
    (cache : Cache) (key : String) : GetResult :=
  match getFromCache now cache key with
  | (some v, c1) => ⟨some v, c1, []⟩
  | (none, c1) =>
    if key == "API_KEY" then
      let sharedKey := upperSnake cfg.serviceName ++ "_API_KEY"
      let sharedScopedName := buildSecretName cfg sharedKey "shared"
      match gcpFetchSecret backend sharedScopedName with
      | some v => ⟨some v, gcpSetCache now c1 key v, [sharedScopedName]⟩
      | none => ⟨none, c1, [sharedScopedName]⟩
    else
      let serviceScopedName := buildSecretName cfg key cfg.serviceName
      match gcpFetchSecret backend serviceScopedName with
      | some v => ⟨some v, gcpSetCache now c1 key v, [serviceScopedName]⟩
      | none =>
        let sharedScopedName := buildSecretName cfg key "shared"
        match gcpFetchSecret backend sharedScopedName with
        | some v =>
          ⟨some v, gcpSetCache now c1 key v, [serviceScopedName, sharedScopedName]⟩
        | none => ⟨none, c1, [serviceScopedName, sharedScopedName]⟩

/-- `AWSSecretsProvider.get`: cache first; *every* key (including
`API_KEY`) tries the service scope then falls back to the shared scope;
non-null results are cached via `awsSetCache`. -/
def awsGet (cfg : CloudCfg) (backend : FetchBackend) (now : Nat)
    (cache : Cache) (key : String) : GetResult :=
  match getFromCache now cache key with
  | (some v, c1) => ⟨some v, c1, []⟩
  | (none, c1) =>
    let serviceScopedName := buildSecretName cfg key cfg.serviceName
    match awsFetchSecret backend serviceScopedName with
    | some v => ⟨some v, awsSetCache now c1 key v, [serviceScopedName]⟩
    | none =>
      let sharedScopedName := buildSecretName cfg key "shared"
      match awsFetchSecret backend sharedScopedName with
      | some v =>
        ⟨some v, awsSetCache now c1 key v, [serviceScopedName, sharedScopedName]⟩
      | none => ⟨none, c1, [serviceScopedName, sharedScopedName]⟩

/-- `AzureSecretsProvider.get`: cache first; *every* key (including
`API_KEY`) tries the service scope then falls back to the shared scope
(names go through `azureTransformKey`); non-null results are cached via
`azureSetCache`. -/
def azureGet (cfg : CloudCfg) (backend : FetchBackend) (now : Nat)
    (cache : Cache) (key : String) : GetResult :=
  match getFromCache now cache key with
  | (some v, c1) => ⟨some v, c1, []⟩
  | (none, c1) =>
    let serviceScopedName := azureBuildSecretName cfg key cfg.serviceName
    match azureFetchSecret backend serviceScopedName with
    | some v => ⟨some v, azureSetCache now c1 key v, [serviceScopedName]⟩
    | none =>
      let sharedScopedName := azureBuildSecretName cfg key "shared"
      match azureFetchSecret backend sharedScopedName with
      | some v =>
        ⟨some v, azureSetCache now c1 key v, [serviceScopedName, sharedScopedName]⟩
      | none => ⟨none, c1, [serviceScopedName, sharedScopedName]⟩

/-! ## Cloud provider family: `set` / `remove` / `list` error wrapping -/

/-- Outcome of one backend write/delete call. -/
inductive OpOutcome : Type
  | ok
  | err (msg : String)
deriving DecidableEq

/-- The backend calls `GCPSecretsProvider.set` performs inside its `try`:
the two `getSecret` existence probes (which catch their own errors and so
only yield booleans), `createSecret`, and `addSecretVersion`. -/
structure GcpSetBackend where
  existsServiceScoped : Bool
  existsShared : Bool
  create : OpOutcome
  addVersion : OpOutcome
deriving DecidableEq

/-- `GCPSecretsProvider.set`: create the secret if neither scope has it,
add a version, invalidate the cache entry; any thrown backend error is
wrapped as `Failed to set secret {name} in GCP: {msg}`.  The secret
`value` is passed to the backend payload but never enters the wrapper
message. -/
def gcpSet (cfg : CloudCfg) (b : GcpSetBackend) (cache : Cache)
    (key value : String) : Except String Cache :=
  let _ := value
  let secretName := buildSecretName cfg key cfg.serviceName
  let secretExists := b.existsServiceScoped || b.existsShared
  match (if secretExists then OpOutcome.ok else b.create) with
  | .err m => .error ("Failed to set secret " ++ secretName ++ " in GCP: " ++ m)
  | .ok =>
    match b.addVersion with
    | .err m => .error ("Failed to set secret " ++ secretName ++ " in GCP: " ++ m)
    | .ok => .ok (cacheErase cache key)

/-- `GCPSecretsProvider.remove`: delete the secret and invalidate the cache
entry; a thrown backend error is wrapped as
`Failed to remove secret {name} from GCP: {msg}`. -/
def gcpRemove (cfg : CloudCfg) (deleteOutcome : OpOutcome) (cache : Cache)
    (key : String) : Except String Cache :=
  let secretName := buildSecretName cfg key cfg.serviceName
  match deleteOutcome with
  | .err m =>
    .error ("Failed to remove secret " ++ secretName ++ " from GCP: " ++ m)
  | .ok => .ok (cacheErase cache key)

/-- `GCPSecretsProvider.list`: enumerate project-labelled secrets and strip
the naming prefix; a thrown backend error is wrapped as
`Failed to list secrets from GCP: {msg}`. -/
def gcpList (listOutcome : Except String (List String)) :
    Except String (List String) :=
  match listOutcome with
  | .error m => .error ("Failed to list secrets from GCP: " ++ m)
  | .ok ids => .ok ids

/-- The backend calls `AWSSecretsProvider.set` performs inside its `try`:
the two `DescribeSecret` existence probes (their errors are caught),
`CreateSecret`, and `PutSecretValue`. -/
structure AwsSetBackend where
  existsServiceScoped : Bool
  existsShared : Bool
  create : OpOutcome
  putValue : OpOutcome
deriving DecidableEq

/-- `AWSSecretsProvider.set`: create when absent, else put a new value,
then invalidate the cache entry; any thrown backend error is wrapped as
`Failed to set secret {name} in AWS: {msg}`. -/
def awsSet (cfg : CloudCfg) (b : AwsSetBackend) (cache : Cache)
    (key value : String) : Except String Cache :=
  let _ := value
  let secretName := buildSecretName cfg key cfg.serviceName
  let secretExists := b.existsServiceScoped || b.existsShared
  match (if secretExists then b.putValue else b.create) with
  | .err m => .error ("Failed to set secret " ++ secretName ++ " in AWS: " ++ m)
  | .ok => .ok (cacheErase cache key)

/-- `AzureSecretsProvider.set`: one `setSecret` call, then cache
invalidation; a thrown backend error is wrapped as
`Failed to set secret {name} in Azure: {msg}`. -/
def azureSet (cfg : CloudCfg) (setOutcome : OpOutcome) (cache : Cache)
    (key value : String) : Except String Cache :=
  let _ := value
  let secretName := azureBuildSecretName cfg key cfg.serviceName
  match setOutcome with
  | .err m => .error ("Failed to set secret " ++ secretName ++ " in Azure: " ++ m)
  | .ok => .ok (cacheErase cache key)

/-- `AWSSecretsProvider.remove`: delete the secret (7-day recovery window)
and invalidate the cache entry; a thrown backend error is wrapped as
`Failed to remove secret {name} from AWS: {msg}`. -/
def awsRemove (cfg : CloudCfg) (deleteOutcome : OpOutcome) (cache : Cache)
    (key : String) : Except String Cache :=
  let secretName := buildSecretName cfg key cfg.serviceName
  match deleteOutcome with
  | .err m =>
    .error ("Failed to remove secret " ++ secretName ++ " from AWS: " ++ m)
  | .ok => .ok (cacheErase cache key)

/-- `AzureSecretsProvider.remove`: begin the (soft) delete and poll it to
completion, then invalidate the cache entry; a thrown backend error is
wrapped as `Failed to remove secret {name} from Azure: {msg}`. -/
def azureRemove (cfg : CloudCfg) (deleteOutcome : OpOutcome) (cache : Cache)
    (key : String) : Except String Cache :=
  let secretName := azureBuildSecretName cfg key cfg.serviceName
  match deleteOutcome with
  | .err m =>
    .error ("Failed to remove secret " ++ secretName ++ " from Azure: " ++ m)
  | .ok => .ok (cacheErase cache key)

/-- `AWSSecretsProvider.list`: enumerate project-tagged secrets and strip
the naming prefix; a thrown backend error is wrapped as
`Failed to list secrets from AWS: {msg}`. -/
def awsList (listOutcome : Except String (List String)) :
    Except String (List String) :=
  match listOutcome with
  | .error m => .error ("Failed to list secrets from AWS: " ++ m)
  | .ok ids => .ok ids

/-- `AzureSecretsProvider.list`: enumerate the vault, keep project-tagged
secrets, strip the naming prefix; a thrown backend error is wrapped as
`Failed to list secrets from Azure: {msg}`. -/
def azureList (listOutcome : Except String (List String)) :
    Except String (List String) :=
  match listOutcome with
  | .error m => .error ("Failed to list secrets from Azure: " ++ m)
  | .ok ids => .ok ids

/-! ## Local provider (`LocalSecretsProvider.get`) -/

/-- The parsed `.secrets.local.json` document: top-level scope name →
(key → value).  The reserved cross-service scope is the literal
`"secrets"` top-level key. -/
abbrev LocalFile : Type := List (String × List (String × String))

/-- The local provider default cache TTL (constructor default, ms). -/
def LOCAL_DEFAULT_CACHE_TTL_MS : Nat := 60000

/-- The file lookup inside `LocalSecretsProvider.get`: service scope first
(when a service name is configured and truthy), then — when that produced
nothing truthy — the reserved top-level `secrets` scope.  JS `if (!value)`
means an empty-string service-scoped value also falls through. -/
def localLookupValue (serviceName : Option String) (file : LocalFile)
    (key : String) : Option String :=
  let fromService : Option String :=
    if truthy serviceName then
      match assocGet file (serviceName.getD "") with
      | some serviceConfig => assocGet serviceConfig key
      | none => none
    else none
  if truthy fromService then fromService
  else
    match assocGet file "secrets" with
    | some topLevelSecrets => assocGet topLevelSecrets key
    | none => none

/-- The not-found error message thrown by `LocalSecretsProvider.get`. -/
def localNotFoundMsg (serviceName : Option String) (key : String) : String :=
  "Secret \x22" ++ key ++ "\x22 not found. " ++
    (if truthy serviceName then
      "Searched in service \x22" ++ serviceName.getD "" ++
        "\x22 and top-level secrets."
    else
      "Searched in top-level secrets only. Use setServiceName() to search in a specific service.")

/-- `LocalSecretsProvider.get`: a cache entry is used only while
`Date.now() < expiresAt`; otherwise the file (`file` models the freshly
reloaded document) is consulted, a truthy value is cached for `cacheTtl`
ms and returned, and a falsy result throws — leaving the cache, including
any expired entry, untouched. -/
def localGet (now : Nat) (serviceName : Option String) (file : LocalFile)
    (cache : Cache) (key : String) (cacheTtl : Nat) :
    Except String String × Cache :=
  let cached := cacheFind cache key
  match cached with
  | some entry =>
    if now < entry.expiresAt then (.ok entry.value, cache)
    else
      match localLookupValue serviceName file key with
      | some v =>
        if v == "" then (.error (localNotFoundMsg serviceName key), cache)
        else (.ok v, cacheInsert cache key ⟨v, now + cacheTtl⟩)
      | none => (.error (localNotFoundMsg serviceName key), cache)
  | none =>
    match localLookupValue serviceName file key with
    | some v =>
      if v == "" then (.error (localNotFoundMsg serviceName key), cache)
      else (.ok v, cacheInsert cache key ⟨v, now + cacheTtl⟩)
    | none => (.error (localNotFoundMsg serviceName key), cache)

/-! ## Concrete oracles and inputs used by witnesses and counterexamples -/

/-- A userinfo decoder that always fails (models an absent or unparsable
`x-userinfo` blob). -/
def decodeNone : UserinfoDecoder := fun _ => none

/-- A backend where no secret exists (`NOT_FOUND` everywhere). -/
def notFoundBackend : FetchBackend := fun _ => .err (some 5) "NOT_FOUND"

/-- A backend whose every secret value is an absolute URL. -/
def urlBackend : FetchBackend := fun _ => .ok (some "https://auth.example.com")

/-- A backend failing with a transport error (gRPC 14 `UNAVAILABLE`),
which is not the `NOT_FOUND` code 5. -/
def transportErrBackend : FetchBackend :=
  fun _ => .err (some 14) "UNAVAILABLE: connection reset"

/-- The example provider configuration used in concrete runs. -/
def cfgEx : CloudCfg := ⟨"tsdevstack", "auth-service"⟩

/-- A `SecretsService.get` oracle that only knows the own
`API_KEY` of this service. -/
def secretsApiKeyOnly : String → Option String :=
  fun k => if k == "API_KEY" then some "K" else none

/-- A request carrying a valid direct `x-api-key` together with a
`x-consumer-id` identity header (no trust header). -/
def reqApiKeyPlusConsumer : Request :=
  ⟨some "/orders", none, [("x-api-key", "K"), ("x-consumer-id", "u1")]⟩

/-- A request carrying only a `x-consumer-id` identity header. -/
def reqConsumerOnly : Request :=
  ⟨some "/orders", none, [("x-consumer-id", "u1")]⟩

/-- A GCP `set` backend where the secret exists and adding the version
fails. -/
def gcpSetBackendErr : GcpSetBackend := ⟨true, false, .ok, .err "deadline exceeded"⟩

/-- An AWS `set` backend where the secret exists and `PutSecretValue`
fails. -/
def awsSetBackendErr : AwsSetBackend := ⟨true, false, .ok, .err "throttled"⟩

/-- A GCP `set` backend where the secret is absent and `createSecret`
fails. -/
def gcpSetBackendCreateErr : GcpSetBackend :=
  ⟨false, false, .err "permission denied", .ok⟩

/-- An AWS `set` backend where the secret is absent and `CreateSecret`
fails. -/
def awsSetBackendCreateErr : AwsSetBackend :=
  ⟨false, false, .err "access denied", .ok⟩

/-- No URL-shaped value is stored in a cache. -/
def cacheNoUrl (c : Cache) : Prop :=
  ∀ p ∈ c, isUrlValue p.2.value = false

/-! ## Helper lemmas -/

theorem listHasSub_singleton (c : Char) (l : List Char) :
    listHasSub [c] l = true ↔ c ∈ l := by
  induction l with
  | nil => simp [listHasSub, listStarts]
  | cons h t ih =>
    have h1 : listStarts t [] = true := by cases t <;> rfl
    simp only [listHasSub, listStarts, h1, Bool.and_true, Bool.or_eq_true,
      beq_iff_eq, ih, List.mem_cons]
    tauto

theorem jsIncludes_comma_iff (v : String) :
    jsIncludes v "," = true ↔ ',' ∈ v.data := by
  have : ",".data = [','] := rfl
  rw [jsIncludes, this, listHasSub_singleton]

theorem jsIsAllDigits_iff (v : String) :
    jsIsAllDigits v = true ↔ v.data ≠ [] ∧ ∀ c ∈ v.data, c.isDigit = true := by
  simp [jsIsAllDigits, List.isEmpty_iff, List.all_eq_true]

theorem camelChars_no_dash : ∀ l : List Char, '-' ∉ l → camelChars l = l
  | [], _ => rfl
  | [_], _ => rfl
  | c1 :: c2 :: rest, h => by
    have h1 : ¬(c1 == '-' && isAsciiLowerChar c2) = true := by
      intro hc
      exact h (by simp_all)
    rw [camelChars, if_neg h1,
      camelChars_no_dash (c2 :: rest) (fun hm => h (List.mem_cons_of_mem _ hm))]

theorem mem_cacheErase {p : String × CacheEntry} {c : Cache} {k : String}
    (h : p ∈ cacheErase c k) : p ∈ c :=
  (List.mem_filter.mp h).1

theorem mem_cacheInsert {p : String × CacheEntry} {c : Cache} {k : String}
    {e : CacheEntry} (h : p ∈ cacheInsert c k e) : p = (k, e) ∨ p ∈ c := by
  rcases List.mem_cons.mp h with h | h
  · exact Or.inl h
  · exact Or.inr (mem_cacheErase h)

/-! ## Claim theorems -/

/-- C7: for byte strings of unequal length the secret comparison of the guard
(used for both the trust token and the API key) decides inequality by the
length check alone, never evaluating the byte-wise timing-safe comparator;
the byte comparator is evaluated exactly when the lengths are equal. -/
theorem c7_length_mismatch_short_circuits (a b : List Nat) :
    (a.length ≠ b.length → secretCompare a b = ⟨false, false⟩) ∧
    ((secretCompare a b).comparatorInvoked = true ↔ a.length = b.length) := by
  constructor
  · intro h
    simp [secretCompare, h]
  · unfold secretCompare
    by_cases h : a.length = b.length
    · simp [h]
    · simp [h]

/-- Witness for `c7_length_mismatch_short_circuits` at concrete buffers. -/
theorem c7_witness :
    secretCompare [1, 2] [1] = ⟨false, false⟩ ∧
    ((secretCompare [1, 2] [3, 4]).comparatorInvoked = true ↔
      ([1, 2] : List Nat).length = ([3, 4] : List Nat).length) :=
  ⟨(c7_length_mismatch_short_circuits [1, 2] [1]).1 (by decide),
   (c7_length_mismatch_short_circuits [1, 2] [3, 4]).2⟩

/-- C8: claim-header parsing precedence — a value containing a comma always
parses to an array of trimmed string segments (even when every segment is
numeric or boolean); otherwise an all-digits value parses to an integer;
otherwise exactly `true`/`false` parse to booleans; otherwise the literal
string is returned. -/
theorem c8_parse_precedence (v : String) :
    (',' ∈ v.data → parseHeaderValue v = .arr (jsSplitTrim v)) ∧
    (',' ∉ v.data → v.data ≠ [] → (∀ c ∈ v.data, c.isDigit = true) →
      parseHeaderValue v = .num (parseDecimalDigits v)) ∧
    (v = "true" → parseHeaderValue v = .boolean true) ∧
    (v = "false" → parseHeaderValue v = .boolean false) ∧
    (',' ∉ v.data → jsIsAllDigits v = false → v ≠ "true" → v ≠ "false" →
      parseHeaderValue v = .str v) ∧
    parseHeaderValue "1,2,3" = .arr ["1", "2", "3"] ∧
    parseHeaderValue "true,false" = .arr ["true", "false"] := by
  refine ⟨?_, ?_, ?_, ?_, ?_, by decide, by decide⟩
  · intro h
    rw [parseHeaderValue, if_pos ((jsIncludes_comma_iff v).mpr h)]
  · intro hc hne hdig
    have h1 : jsIncludes v "," = false :=
      Bool.eq_false_iff.mpr (fun hh => hc ((jsIncludes_comma_iff v).mp hh))
    have h2 : jsIsAllDigits v = true := (jsIsAllDigits_iff v).mpr ⟨hne, hdig⟩
    rw [parseHeaderValue, if_neg (by simp [h1]), if_pos h2]
  · intro h
    subst h
    decide
  · intro h
    subst h
    decide
  · intro hc h2 ht hf
    have h1 : jsIncludes v "," = false :=
      Bool.eq_false_iff.mpr (fun hh => hc ((jsIncludes_comma_iff v).mp hh))
    rw [parseHeaderValue, if_neg (by simp [h1]), if_neg (by simp [h2]),
      if_neg (by simp [ht]), if_neg (by simp [hf])]

/-- Witness for `c8_parse_precedence` at concrete header values. -/
theorem c8_witness :
    parseHeaderValue "USER,ADMIN" = .arr (jsSplitTrim "USER,ADMIN") ∧
    parseHeaderValue "123" = .num (parseDecimalDigits "123") ∧
    parseHeaderValue "john@example.com" = .str "john@example.com" :=
  ⟨(c8_parse_precedence "USER,ADMIN").1 (by decide),
   (c8_parse_precedence "123").2.1 (by decide) (by decide) (by decide),
   (c8_parse_precedence "john@example.com").2.2.2.2.1 (by decide) (by decide)
     (by decide) (by decide)⟩

/-- C9: the kebab-to-camelCase conversion uppercases exactly the lowercase
letters immediately following a hyphen (dropping that hyphen) and keeps
everything else: `tenant-id` ↦ `tenantId`, hyphen-free strings are
returned unchanged, and `user--id` ↦ `user-Id`. -/
theorem c9_camel_case (s : String) :
    ('-' ∉ s.data → toCamelCase s = s) ∧
    toCamelCase "tenant-id" = "tenantId" ∧
    toCamelCase "user--id" = "user-Id" ∧
    (∀ (c : Char) (rest : List Char), isAsciiLowerChar c = true →
      camelChars ('-' :: c :: rest) = c.toUpper :: camelChars rest) ∧
    (∀ (c : Char) (rest : List Char), isAsciiLowerChar c = false →
      camelChars ('-' :: c :: rest) = '-' :: camelChars (c :: rest)) := by
  refine ⟨?_, by decide, by decide, ?_, ?_⟩
  · intro h
    rw [toCamelCase, camelChars_no_dash s.data h]
  · intro c rest hc
    rw [camelChars, if_pos (by simp [hc])]
  · intro c rest hc
    rw [camelChars, if_neg (by simp [hc])]

/-- Witness for `c9_camel_case`: a hyphen-free claim name is unchanged. -/
theorem c9_witness : toCamelCase "email" = "email" :=
  (c9_camel_case "email").1 (by decide)

/-- C6: the gateway-trust check is bypassed exactly for paths that are
`/health`, start with `/health/`, are `/metrics`, or contain the literal
dotted segment `/.well-known/`: such paths skip the check even with no
trust header, while every other path (in particular `/well-known-users`
and `/wellknown/config`) is checked and rejected when the trust header is
absent. -/
theorem c6_trust_bypass_paths (path : String)
    (secrets : String → Option String) (hs : List (String × String)) :
    (isInfraBypassPath path = true →
      verifyKongTrustHeader secrets ⟨some path, none, hs⟩ = (.ok (), [], 0)) ∧
    (isInfraBypassPath path = false → hGet hs "x-kong-trust" = none →
      verifyKongTrustHeader secrets ⟨some path, none, hs⟩ =
        (.error (.unauthorized "Unauthorized request"), [], 0)) ∧
    isInfraBypassPath "/health" = true ∧
    isInfraBypassPath "/health/ping" = true ∧
    isInfraBypassPath "/metrics" = true ∧
    isInfraBypassPath "/api/.well-known/jwks.json" = true ∧
    isInfraBypassPath "/well-known-users" = false ∧
    isInfraBypassPath "/wellknown/config" = false := by
  refine ⟨?_, ?_, by decide, by decide, by decide, by decide, by decide, by decide⟩
  · intro h
    have hne : path ≠ "" := by
      intro he
      rw [he] at h
      exact absurd h (by decide)
    have htr : truthy (some path) = true := by
      simp [truthy, hne]
    simp [verifyKongTrustHeader, jsOr, htr, h]
  · intro h hnone
    unfold verifyKongTrustHeader
    simp only [jsOr]
    by_cases hp : path = ""
    · subst hp
      simp [truthy, hnone]
    · simp [truthy, hp, h, hnone]

/-- Witness for `c6_trust_bypass_paths`: `/health` skips the check with no
trust header, `/well-known-users` does not. -/
theorem c6_witness :
    verifyKongTrustHeader (fun _ => none) ⟨some "/health", none, []⟩ =
      (.ok (), [], 0) ∧
    verifyKongTrustHeader (fun _ => none) ⟨some "/well-known-users", none, []⟩ =
      (.error (.unauthorized "Unauthorized request"), [], 0) :=
  ⟨(c6_trust_bypass_paths "/health" (fun _ => none) []).1 (by decide),
   (c6_trust_bypass_paths "/well-known-users" (fun _ => none) []).2.1
     (by decide) rfl⟩

/-- C10: a request with no trust header and no API-key header but with at
least one identity header, on a non-public route, is admitted with an
Identity attached while no secret is fetched and no secret comparison is
performed. -/
theorem c10_identity_headers_skip_secret_checks
    (secrets : String → Option String) (decode : UserinfoDecoder) (req : Request)
    (hTrust : truthy (hGet req.headers "x-kong-trust") = false)
    (hApi : truthy (hGet req.headers "x-api-key") = false)
    (hId : truthy (hGet req.headers consumerIdHeader) = true ∨
        truthy (hGet req.headers credentialIdentifierHeader) = true ∨
        truthy (hGet req.headers userinfoHeader) = true) :
    canActivate secrets decode false req =
      ⟨.ok true, some (extractUserFromHeadersG decode req.headers), none, [], 0⟩ := by
  unfold canActivate
  rcases hId with h | h | h <;> simp [hTrust, hApi, h]

/-- Witness for `c10_identity_headers_skip_secret_checks`: a request with
only a `x-consumer-id` header. -/
theorem c10_witness :
    canActivate (fun _ => none) decodeNone false reqConsumerOnly =
      ⟨.ok true, some (extractUserFromHeadersG decodeNone reqConsumerOnly.headers),
        none, [], 0⟩ :=
  c10_identity_headers_skip_secret_checks (fun _ => none) decodeNone
    reqConsumerOnly (by decide) (by decide) (Or.inl (by decide))

/-- C1 (amended): whenever the direct-API-key path does not run — the
request has a trust header, or has no API-key header — the final request
context never carries both an Identity (`request.user`) and a ServiceCall
(`request.service`). (With a valid direct API key plus an identity header
both end up attached; see the counterexample.) -/
theorem c1_amended_exclusion (secrets : String → Option String)
    (decode : UserinfoDecoder) (isPublic : Bool) (req : Request)
    (h : truthy (hGet req.headers "x-kong-trust") = true ∨
        truthy (hGet req.headers "x-api-key") = false) :
    ¬((canActivate secrets decode isPublic req).user.isSome = true ∧
      (canActivate secrets decode isPublic req).service.isSome = true) := by
  by_cases hk : truthy (hGet req.headers "x-kong-trust") = true
  · unfold canActivate
    rcases hv : verifyKongTrustHeader secrets req with ⟨res, f, c⟩
    rcases res with e | u
    · simp [hk, hv]
    · simp only [hk, hv, if_true]
      split_ifs <;> simp
  · have hk2 : truthy (hGet req.headers "x-kong-trust") = false := by
      simpa using hk
    have hApi : truthy (hGet req.headers "x-api-key") = false := by
      rcases h with h | h
      · exact absurd h hk
      · exact h
    unfold canActivate
    simp only [hk2, hApi, Bool.false_eq_true, if_false]
    split_ifs <;> simp

/-- C1 counterexample: with no trust header, a valid direct `x-api-key`
and a `x-consumer-id` identity header, the guard attaches an Identity
*and* leaves the ServiceCall (`request.service = "internal"`) attached —
both are present simultaneously. -/
theorem c1_counterexample :
    (canActivate secretsApiKeyOnly decodeNone false reqApiKeyPlusConsumer).user.isSome
        = true ∧
    (canActivate secretsApiKeyOnly decodeNone false reqApiKeyPlusConsumer).service
        = some "internal" := by
  decide

/-- Witness for `c1_amended_exclusion`: a request with an identity header
and no API key never ends with both attached. -/
theorem c1_witness :
    ¬((canActivate (fun _ => none) decodeNone false reqConsumerOnly).user.isSome = true ∧
      (canActivate (fun _ => none) decodeNone false reqConsumerOnly).service.isSome = true) :=
  c1_amended_exclusion (fun _ => none) decodeNone false reqConsumerOnly
    (Or.inr (by decide))

/-- C2 (amended): only the GCP provider special-cases `API_KEY` — its
`get` applied to `API_KEY` contacts the backend (if at all) only under the shared
name `{projectName}-shared-{SERVICE_NAME_UPPER_SNAKE}_API_KEY`; the AWS
and Azure providers resolve `API_KEY` like every other key, performing the
service-scoped lookup first. -/
theorem c2_amended_api_key_scoping (cfg : CloudCfg) (backend : FetchBackend)
    (now : Nat) (cache : Cache) (key : String) :
    (∀ n ∈ (gcpGet cfg backend now cache "API_KEY").fetched,
      n = buildSecretName cfg (upperSnake cfg.serviceName ++ "_API_KEY") "shared") ∧
    (cacheFind cache key = none →
      (awsGet cfg backend now cache key).fetched.head? =
        some (buildSecretName cfg key cfg.serviceName) ∧
      (azureGet cfg backend now cache key).fetched.head? =
        some (azureBuildSecretName cfg key cfg.serviceName)) := by
  constructor
  · intro n hn
    unfold gcpGet at hn
    rcases hc : getFromCache now cache "API_KEY" with ⟨v?, c1⟩
    rw [hc] at hn
    rcases v? with _ | v
    · simp only [if_pos rfl] at hn
      rcases hf : gcpFetchSecret backend
          (buildSecretName cfg (upperSnake cfg.serviceName ++ "_API_KEY") "shared")
        with _ | w
      · rw [hf] at hn
        simp at hn
        exact hn
      · rw [hf] at hn
        simp at hn
        exact hn
    · simp at hn
  · intro hmiss
    have hc : getFromCache now cache key = (none, cache) := by
      unfold getFromCache
      rw [hmiss]
    constructor
    · unfold awsGet
      rw [hc]
      rcases hf : awsFetchSecret backend (buildSecretName cfg key cfg.serviceName)
        with _ | w
      · rcases hg : awsFetchSecret backend (buildSecretName cfg key "shared")
          with _ | w2 <;> simp [hf, hg]
      · simp [hf]
    · unfold azureGet
      rw [hc]
      rcases hf : azureFetchSecret backend (azureBuildSecretName cfg key cfg.serviceName)
        with _ | w
      · rcases hg : azureFetchSecret backend (azureBuildSecretName cfg key "shared")
          with _ | w2 <;> simp [hf, hg]
      · simp [hf]

/-- Witness for `c2_amended_api_key_scoping` at the example configuration. -/
theorem c2_witness :
    "tsdevstack-shared-AUTH_SERVICE_API_KEY" =
      buildSecretName cfgEx (upperSnake cfgEx.serviceName ++ "_API_KEY") "shared" ∧
    (awsGet cfgEx notFoundBackend 0 [] "API_KEY").fetched.head? =
      some (buildSecretName cfgEx "API_KEY" cfgEx.serviceName) :=
  ⟨(c2_amended_api_key_scoping cfgEx notFoundBackend 0 [] "API_KEY").1
      "tsdevstack-shared-AUTH_SERVICE_API_KEY" (by decide),
    ((c2_amended_api_key_scoping cfgEx notFoundBackend 0 [] "API_KEY").2 rfl).1⟩

/-- C2 counterexample: the AWS and Azure providers *do* perform the
service-scoped lookup for `API_KEY` (it is the first backend fetch), and
they never consult `{SERVICE_NAME_UPPER_SNAKE}_API_KEY`. -/
theorem c2_counterexample :
    (awsGet cfgEx notFoundBackend 0 [] "API_KEY").fetched =
      ["tsdevstack-auth-service-API_KEY", "tsdevstack-shared-API_KEY"] ∧
    (azureGet cfgEx notFoundBackend 0 [] "API_KEY").fetched =
      ["tsdevstack-auth-service-API-KEY", "tsdevstack-shared-API-KEY"] := by
  decide

theorem gcpSetCache_noUrl {c : Cache} (h2 : cacheNoUrl c) (now : Nat)
    (key v : String) : cacheNoUrl (gcpSetCache now c key v) := by
  unfold gcpSetCache
  split
  · exact h2
  · next hurl =>
    intro p hp
    rcases mem_cacheInsert hp with hpe | hp2
    · rw [hpe]
      simpa using hurl
    · exact h2 p hp2

theorem getFromCache_noUrl {cache : Cache} (h : cacheNoUrl cache) (now : Nat)
    (key : String) : cacheNoUrl (getFromCache now cache key).2 := by
  unfold getFromCache
  rcases cacheFind cache key with _ | e
  · exact h
  · dsimp only
    split
    · intro p hp
      exact h p (mem_cacheErase hp)
    · exact h

/-- C3 (amended): only the GCP provider refuses to cache URL-shaped
values — starting from a cache free of URL values, the cache after a GCP
`get` is still free of them, so a returned `http(s)://` value is never
present in it; the AWS and Azure providers cache URL-shaped values like
any other non-null result (see the counterexample). -/
theorem c3_amended_url_not_cached (cfg : CloudCfg) (backend : FetchBackend)
    (now : Nat) (cache : Cache) (key : String) (h : cacheNoUrl cache) :
    cacheNoUrl (gcpGet cfg backend now cache key).cache ∧
    (∀ v, (gcpGet cfg backend now cache key).value = some v →
      isUrlValue v = true →
      ∀ p ∈ (gcpGet cfg backend now cache key).cache, p.2.value ≠ v) := by
  have h1 : cacheNoUrl (getFromCache now cache key).2 := getFromCache_noUrl h now key
  have hmain : cacheNoUrl (gcpGet cfg backend now cache key).cache := by
    unfold gcpGet
    rcases hc : getFromCache now cache key with ⟨ov, c1⟩
    rw [hc] at h1
    rcases ov with _ | v
    · dsimp only
      split
      · rcases gcpFetchSecret backend
            (buildSecretName cfg (upperSnake cfg.serviceName ++ "_API_KEY") "shared")
          with _ | w
        · exact h1
        · exact gcpSetCache_noUrl h1 now key w
      · rcases gcpFetchSecret backend (buildSecretName cfg key cfg.serviceName)
          with _ | w
        · rcases gcpFetchSecret backend (buildSecretName cfg key "shared")
            with _ | w2
          · exact h1
          · exact gcpSetCache_noUrl h1 now key w2
        · exact gcpSetCache_noUrl h1 now key w
    · exact h1
  refine ⟨hmain, ?_⟩
  intro v _ hurl p hp hpv
  have hn := hmain p hp
  rw [hpv] at hn
  rw [hn] at hurl
  exact Bool.false_ne_true hurl

/-- Witness for `c3_amended_url_not_cached`: after fetching a URL-shaped
secret through GCP starting from the empty cache, the cache holds no URL
value. -/
theorem c3_witness :
    cacheNoUrl (gcpGet cfgEx urlBackend 0 [] "AUTH_URL").cache :=
  (c3_amended_url_not_cached cfgEx urlBackend 0 [] "AUTH_URL"
    (by intro p hp; cases hp)).1

/-- C3 counterexample: the AWS and Azure providers cache a successfully
fetched `https://` value — after `get` it sits in the cache with the
5-minute expiry. -/
theorem c3_counterexample :
    (awsGet cfgEx urlBackend 0 [] "AUTH_URL").value =
      some "https://auth.example.com" ∧
    ("AUTH_URL", (⟨"https://auth.example.com", 300000⟩ : CacheEntry)) ∈
      (awsGet cfgEx urlBackend 0 [] "AUTH_URL").cache ∧
    (azureGet cfgEx urlBackend 0 [] "AUTH_URL").value =
      some "https://auth.example.com" ∧
    ("AUTH_URL", (⟨"https://auth.example.com", 300000⟩ : CacheEntry)) ∈
      (azureGet cfgEx urlBackend 0 [] "AUTH_URL").cache := by
  decide

/-- C4 (amended): across all three providers, write-path errors
(`set`/`remove`/`list`) are surfaced as wrapped errors whose message names
the operation and (for `set` and `remove`) the secret name and which is
independent of the secret value — for `set` on both the create path and
the add-version/put-value path; `get`, however, never propagates a backend
error — every error, transport errors included, is converted into a `null`
(not-found) result by the fetch helpers of all three providers. -/
theorem c4_amended_error_wrapping (cfg : CloudCfg) (cache : Cache)
    (key v1 v2 m name : String) (gb : GcpSetBackend) (ab : AwsSetBackend)
    (backend : FetchBackend) (code : Option Int) :
    (gb.existsServiceScoped = false → gb.existsShared = false →
      gb.create = .err m →
      gcpSet cfg gb cache key v1 =
        .error ("Failed to set secret " ++ buildSecretName cfg key cfg.serviceName
          ++ " in GCP: " ++ m)) ∧
    (gb.existsServiceScoped = true → gb.addVersion = .err m →
      gcpSet cfg gb cache key v1 =
        .error ("Failed to set secret " ++ buildSecretName cfg key cfg.serviceName
          ++ " in GCP: " ++ m)) ∧
    gcpSet cfg gb cache key v1 = gcpSet cfg gb cache key v2 ∧
    gcpRemove cfg (.err m) cache key =
      .error ("Failed to remove secret " ++ buildSecretName cfg key cfg.serviceName
        ++ " from GCP: " ++ m) ∧
    gcpList (.error m) = .error ("Failed to list secrets from GCP: " ++ m) ∧
    (ab.existsServiceScoped = false → ab.existsShared = false →
      ab.create = .err m →
      awsSet cfg ab cache key v1 =
        .error ("Failed to set secret " ++ buildSecretName cfg key cfg.serviceName
          ++ " in AWS: " ++ m)) ∧
    (ab.existsServiceScoped = true → ab.putValue = .err m →
      awsSet cfg ab cache key v1 =
        .error ("Failed to set secret " ++ buildSecretName cfg key cfg.serviceName
          ++ " in AWS: " ++ m)) ∧
    awsSet cfg ab cache key v1 = awsSet cfg ab cache key v2 ∧
    awsRemove cfg (.err m) cache key =
      .error ("Failed to remove secret " ++ buildSecretName cfg key cfg.serviceName
        ++ " from AWS: " ++ m) ∧
    awsList (.error m) = .error ("Failed to list secrets from AWS: " ++ m) ∧
    azureSet cfg (.err m) cache key v1 =
      .error ("Failed to set secret " ++ azureBuildSecretName cfg key cfg.serviceName
        ++ " in Azure: " ++ m) ∧
    azureSet cfg (.err m) cache key v1 = azureSet cfg (.err m) cache key v2 ∧
    azureRemove cfg (.err m) cache key =
      .error ("Failed to remove secret " ++ azureBuildSecretName cfg key cfg.serviceName
        ++ " from Azure: " ++ m) ∧
    azureList (.error m) = .error ("Failed to list secrets from Azure: " ++ m) ∧
    (backend name = .err code m → gcpFetchSecret backend name = none ∧
      awsFetchSecret backend name = none ∧ azureFetchSecret backend name = none) := by
  refine ⟨?_, ?_, rfl, rfl, rfl, ?_, ?_, rfl, rfl, rfl, rfl, rfl, rfl, rfl, ?_⟩
  · intro he1 he2 hc
    unfold gcpSet
    rw [he1, he2]
    simp [hc]
  · intro he ha
    unfold gcpSet
    rw [he]
    simp [ha]
  · intro ha1 ha2 hc
    unfold awsSet
    rw [ha1, ha2]
    simp [hc]
  · intro he ha
    unfold awsSet
    rw [he]
    simp [ha]
  · intro hb
    unfold gcpFetchSecret awsFetchSecret azureFetchSecret
    rw [hb]
    exact ⟨rfl, rfl, rfl⟩

/-- Witness for `c4_amended_error_wrapping` at concrete backends, covering
both `set` error paths of GCP and AWS and the error-to-null `get`
conversion. -/
theorem c4_witness :
    gcpSet cfgEx gcpSetBackendCreateErr [] "DATABASE_URL" "postgres://db" =
      .error "Failed to set secret tsdevstack-auth-service-DATABASE_URL in GCP: permission denied" ∧
    gcpSet cfgEx gcpSetBackendErr [] "DATABASE_URL" "postgres://db" =
      .error "Failed to set secret tsdevstack-auth-service-DATABASE_URL in GCP: deadline exceeded" ∧
    awsSet cfgEx awsSetBackendCreateErr [] "DATABASE_URL" "postgres://db" =
      .error "Failed to set secret tsdevstack-auth-service-DATABASE_URL in AWS: access denied" ∧
    awsSet cfgEx awsSetBackendErr [] "DATABASE_URL" "postgres://db" =
      .error "Failed to set secret tsdevstack-auth-service-DATABASE_URL in AWS: throttled" ∧
    gcpFetchSecret transportErrBackend "tsdevstack-auth-service-DATABASE_URL" = none := by
  refine ⟨?_, ?_, ?_, ?_, ?_⟩
  · exact (c4_amended_error_wrapping cfgEx [] "DATABASE_URL" "postgres://db" ""
      "permission denied" "" gcpSetBackendCreateErr awsSetBackendErr
      transportErrBackend none).1 rfl rfl rfl
  · exact (c4_amended_error_wrapping cfgEx [] "DATABASE_URL" "postgres://db" ""
      "deadline exceeded" "" gcpSetBackendErr awsSetBackendErr
      transportErrBackend none).2.1 rfl rfl
  · exact (c4_amended_error_wrapping cfgEx [] "DATABASE_URL" "postgres://db" ""
      "access denied" "" gcpSetBackendErr awsSetBackendCreateErr
      transportErrBackend none).2.2.2.2.2.1 rfl rfl rfl
  · exact (c4_amended_error_wrapping cfgEx [] "DATABASE_URL" "postgres://db" ""
      "throttled" "" gcpSetBackendErr awsSetBackendErr
      transportErrBackend none).2.2.2.2.2.2.1 rfl rfl
  · exact ((c4_amended_error_wrapping cfgEx [] "DATABASE_URL" "postgres://db" ""
      "UNAVAILABLE: connection reset" "tsdevstack-auth-service-DATABASE_URL"
      gcpSetBackendErr awsSetBackendErr transportErrBackend
      (some 14)).2.2.2.2.2.2.2.2.2.2.2.2.2.2 rfl).1

/-- C4 counterexample: a transport error (gRPC 14, not the NOT_FOUND
code 5) during `get` is not propagated as a wrapped error — all three
providers turn it into a `null` result, indistinguishable from
not-found. -/
theorem c4_counterexample :
    (gcpGet cfgEx transportErrBackend 0 [] "DATABASE_URL").value = none ∧
    (gcpGet cfgEx transportErrBackend 0 [] "DATABASE_URL").fetched =
      ["tsdevstack-auth-service-DATABASE_URL", "tsdevstack-shared-DATABASE_URL"] ∧
    (awsGet cfgEx transportErrBackend 0 [] "DATABASE_URL").value = none ∧
    (azureGet cfgEx transportErrBackend 0 [] "DATABASE_URL").value = none := by
  decide

/-- C5 (amended): the cloud provider cache read returns the stored
value while `now ≤ expiresAt` (so also at the boundary `now = expiresAt`)
and treats `now > expiresAt` as a miss that evicts the entry; the local
provider returns the cached value only while `now < expiresAt`, and an
expired entry is not evicted on the miss — it is overwritten on a
successful reload and left in place when the reload finds nothing. -/
theorem c5_amended_cache_read (now : Nat) (cache : Cache) (key : String)
    (entry : CacheEntry) (serviceName : Option String) (file : LocalFile)
    (ttl : Nat) (hfind : cacheFind cache key = some entry) :
    (now ≤ entry.expiresAt →
      getFromCache now cache key = (some entry.value, cache)) ∧
    (now > entry.expiresAt →
      getFromCache now cache key = (none, cacheErase cache key)) ∧
    (now < entry.expiresAt →
      localGet now serviceName file cache key ttl = (.ok entry.value, cache)) ∧
    (now ≥ entry.expiresAt → localLookupValue serviceName file key = none →
      localGet now serviceName file cache key ttl =
        (.error (localNotFoundMsg serviceName key), cache)) ∧
    (now ≥ entry.expiresAt →
      ∀ v, localLookupValue serviceName file key = some v → v ≠ "" →
      localGet now serviceName file cache key ttl =
        (.ok v, cacheInsert cache key ⟨v, now + ttl⟩)) := by
  refine ⟨?_, ?_, ?_, ?_, ?_⟩
  · intro hle
    have hng : ¬ now > entry.expiresAt := by omega
    unfold getFromCache
    rw [hfind]
    simp [hng]
  · intro hgt
    unfold getFromCache
    rw [hfind]
    simp [hgt]
  · intro hlt
    unfold localGet
    rw [hfind]
    simp [hlt]
  · intro hge hlook
    have hnl : ¬ now < entry.expiresAt := by omega
    unfold localGet
    rw [hfind]
    simp [hnl, hlook]
  · intro hge v hlook hne
    have hnl : ¬ now < entry.expiresAt := by omega
    unfold localGet
    rw [hfind]
    simp [hnl, hlook, hne]

/-- Witness for `c5_amended_cache_read` at a live entry. -/
theorem c5_witness :
    getFromCache 50 [("k", ⟨"v", 100⟩)] "k" = (some "v", [("k", ⟨"v", 100⟩)]) ∧
    localGet 50 none [] [("k", ⟨"v", 100⟩)] "k" 60000 =
      (.ok "v", [("k", ⟨"v", 100⟩)]) :=
  ⟨(c5_amended_cache_read 50 [("k", ⟨"v", 100⟩)] "k" ⟨"v", 100⟩ none [] 60000
      rfl).1 (by decide),
   (c5_amended_cache_read 50 [("k", ⟨"v", 100⟩)] "k" ⟨"v", 100⟩ none [] 60000
      rfl).2.2.1 (by decide)⟩

/-- C5 counterexample: at the boundary `now = expiresAt` the cloud cache
read still returns the value (the claim demands a miss there), and the
expired-entry miss of the local provider leaves the stale entry in the cache
instead of evicting it. -/
theorem c5_counterexample :
    getFromCache 100 [("k", ⟨"v", 100⟩)] "k" = (some "v", [("k", ⟨"v", 100⟩)]) ∧
    ¬(100 < 100) ∧
    localGet 100 none [] [("k", ⟨"v", 100⟩)] "k" 60000 =
      (.error (localNotFoundMsg none "k"), [("k", ⟨"v", 100⟩)]) := by
  decide
